import Mathlib

/-!
Verification of the Jules reconciliation-and-intervention engine
(`src/services/jules-monitor.ts`, the `jules-monitor.ts` variant shipped under
`src/unnamed/part_000`, and `src/agents/tools/jules/smart-poller.ts`) against
its natural-language specification.

The TypeScript source is shallowly embedded: Prisma rows become Lean
structures, the remote Jules service and the persistent store become explicit
oracles / list-valued state, and each monitor phase becomes a pure function
(or an `Except`-valued function where the source lets exceptions escape).
-/

namespace JulesMonitor

/-! ## Character-list helpers

The Prisma dedup query `metadata: { contains: remoteId }` is a substring
test on the serialized metadata JSON.  We model strings as their underlying
character lists and implement the substring test directly. -/

/-- True when character list `n` is an initial segment of `h`. -/
def strStarts : List Char → List Char → Bool
  | [], _ => true
  | _ :: _, [] => false
  | c :: cs, d :: ds => c == d && strStarts cs ds

/-- True when character list `n` occurs contiguously inside `h`
(the semantics of the store's `contains` filter). -/
def strHas (needle : List Char) : List Char → Bool
  | [] => needle.isEmpty
  | d :: ds => strStarts needle (d :: ds) || strHas needle ds

/-- A string with no double-quote character; remote resource names and
activity ids are assumed quote-free (they are URL path segments). -/
def noQuote (s : String) : Prop := '"' ∉ s.data

instance : DecidablePred noQuote := fun s => by
  unfold noQuote; infer_instance

/-! ## Data model

Mirrors of the Prisma rows (`JulesSession`, `ActivityLog`, `JulesInteraction`)
and of the remote Jules API objects used by the monitor. -/

/-- The remote session state enum from `src/agents/tools/jules/types.ts`. -/
inductive SessionState where
  | STATE_UNSPECIFIED
  | QUEUED
  | PLANNING
  | AWAITING_PLAN_APPROVAL
  | AWAITING_USER_FEEDBACK
  | IN_PROGRESS
  | PAUSED
  | FAILED
  | COMPLETED
deriving DecidableEq, Repr

/-- The string value of a `SessionState` member (TS string enum). -/
def stateStr : SessionState → String
  | .STATE_UNSPECIFIED => "STATE_UNSPECIFIED"
  | .QUEUED => "QUEUED"
  | .PLANNING => "PLANNING"
  | .AWAITING_PLAN_APPROVAL => "AWAITING_PLAN_APPROVAL"
  | .AWAITING_USER_FEEDBACK => "AWAITING_USER_FEEDBACK"
  | .IN_PROGRESS => "IN_PROGRESS"
  | .PAUSED => "PAUSED"
  | .FAILED => "FAILED"
  | .COMPLETED => "COMPLETED"

/-- A remote activity as consumed by the monitor: its resource `name`,
`description`, `createTime`, and the optional `agentMessaged.agentMessage`
payload (`none` when the activity carries no `agentMessaged` event). -/
structure Activity where
  name : String
  description : String
  createTime : String
  agentMessage : Option String
deriving DecidableEq, Repr

/-- A remote session as returned by `listSessions`. -/
structure RemoteSession where
  id : String
  title : Option String
  state : SessionState
  updateTime : Nat
deriving DecidableEq, Repr

/-- The `JulesSession` row.  `status` is a plain string column (written from
`SessionState` values); `completedAt` is the nullable completion timestamp. -/
structure SessionRecord where
  id : String
  title : Option String
  status : String
  origin : String
  originalPrompt : String
  updatedAt : Nat
  completedAt : Option Nat
deriving DecidableEq, Repr

/-- The `ActivityLog` row created by the activity mirror. -/
structure ActivityRecord where
  sessionId : String
  agent : String
  action : String
  result : String
  success : Bool
  timestamp : String
  metadata : String
deriving DecidableEq, Repr

/-- The `JulesInteraction` row created by `logInteraction`. -/
structure InteractionRecord where
  sessionId : String
  type : String
  julesMessage : Option String
  agentResponse : Option String
  isSuccess : Bool
  errorMessage : Option String
deriving DecidableEq, Repr

/-! ## Activity mirror (`syncActivitiesForSession`) -/

/-- Scan of a character list keeping the current segment since the last `/`. -/
def lastSegChars : List Char → List Char → List Char
  | [], acc => acc.reverse
  | c :: cs, acc => if c = '/' then lastSegChars cs [] else lastSegChars cs (c :: acc)

/-- The JS expression `act.name.split('/').pop()`: the last path segment of a resource name
(the whole string when it has no `/`, empty when it ends in `/`). -/
def lastSegment (s : String) : String := ⟨lastSegChars s.data []⟩

/-- The fixed opening of the metadata JSON up to the `remote_id` value. -/
def metaKeyPre : String := "\x7b\"remote_id\":\""

/-- Serialization (`JSON.stringify`) of the raw activity fields kept by this embedding
(the `original_act` payload). -/
def actJson (a : Activity) : String :=
  "\x7b\"name\":\"" ++ a.name ++ "\",\"description\":\"" ++ a.description ++
    "\",\"createTime\":\"" ++ a.createTime ++ "\"" ++
    (match a.agentMessage with
      | some m => ",\"agentMessaged\":\x7b\"agentMessage\":\"" ++ m ++ "\"\x7d"
      | none => "") ++ "\x7d"

/-- The serialized metadata column written by the mirror:
`JSON.stringify({remote_id, full_resource, type: 'JULES_SYNC', original_act})`. -/
def mkMetadata (remoteId : String) (act : Activity) : String :=
  metaKeyPre ++ remoteId ++ "\"" ++
    (",\"full_resource\":\"" ++ act.name ++ "\",\"type\":\"JULES_SYNC\",\"original_act\":" ++
      actJson act ++ "\x7d")

/-- The `ActivityLog` row inserted for one fresh remote activity. -/
def mkActivityRecord (sessionId : String) (act : Activity) : ActivityRecord :=
  { sessionId := sessionId
    agent := "Jules"
    action := "REMOTE_UPDATE"
    result := act.description
    success := true
    timestamp := act.createTime
    metadata := mkMetadata (lastSegment act.name) act }

/-- The dedup query: an existing row for this session whose metadata string
contains the derived remote id (`findFirst` with `metadata: { contains }`). -/
def mirrorHit (sessionId remoteId : String) (lg : List ActivityRecord) : Bool :=
  lg.any (fun r => r.sessionId == sessionId && strHas remoteId.data r.metadata.data)

/-- One iteration of the mirror loop body for a single remote activity. -/
def mirrorStep (sessionId : String) (lg : List ActivityRecord) (act : Activity) :
    List ActivityRecord :=
  if mirrorHit sessionId (lastSegment act.name) lg then lg
  else lg ++ [mkActivityRecord sessionId act]

/-- The mirror `syncActivitiesForSession`: fetch a page of remote activities and insert a
row for each activity whose derived remote id is not already present (as a
substring) in some existing row's metadata for this session. -/
def syncActivitiesForSession (sessionId : String) (acts : List Activity)
    (lg : List ActivityRecord) : List ActivityRecord :=
  acts.foldl (mirrorStep sessionId) lg

/-! ## Session discovery (`syncExternalSessions`)

For each remote session of the fetched page: `findUnique` by id, and when
absent `create` a record with `origin: EXTERNAL`, `status: extSession.state`,
the fixed placeholder prompt, and no `completedAt`.  The whole call is wrapped
in a try/catch, so it never throws; a remote-list failure yields count 0. -/

/-- One iteration of the discovery loop for a single remote session. -/
def discoverStep (st : Nat × List SessionRecord) (ext : RemoteSession) :
    Nat × List SessionRecord :=
  if st.2.any (fun r => r.id == ext.id) then st
  else
    (st.1 + 1,
      st.2 ++ [{ id := ext.id
                 title := ext.title
                 status := stateStr ext.state
                 origin := "EXTERNAL"
                 originalPrompt := "External Session"
                 updatedAt := ext.updateTime
                 completedAt := none }])

/-- Discovery (`syncExternalSessions`) on a successfully fetched remote page: returns the
count of newly adopted sessions and the updated store. -/
def syncExternalSessions (remote : List RemoteSession) (store : List SessionRecord) :
    Nat × List SessionRecord :=
  remote.foldl discoverStep (0, store)

/-! ## Active session sync (`runActiveSessionSync`)

The phase loads all non-terminal sessions, then per session (inside a
per-session try/catch) fetches the remote state, updates status/`completedAt`
on change, and mirrors activities (whose own failures are caught inside
`syncActivitiesForSession`).  The initial `findMany` and the trailing KV cache
write are NOT inside any try/catch, so their failures escape the phase. -/

/-- Remote-call and store-call outcomes injected into one monitor pass: each
field is the behaviour of one kind of elementary call, `Except` when the
source lets that call's failure reach a catch (or escape). -/
structure Behaviour where
  listSessionsR : Except String (List RemoteSession)
  findManyActiveOk : Bool
  getSessionR : String → Except String SessionState
  listActivitiesR : String → Except String (List Activity)
  kvPresent : Bool
  kvPutOk : Bool
  findManyStuckOk : Bool
  checkOnJulesR : String → Except String Unit

/-- The `prisma.julesSession.update` data for a state change observed as
`rs`: new status, and `completedAt` set exactly when the new state is
terminal. -/
def applyUpdate (rs : SessionState) (now : Nat) (targetId : String)
    (r : SessionRecord) : SessionRecord :=
  if r.id == targetId then
    { r with
      status := stateStr rs
      completedAt := if rs = .COMPLETED ∨ rs = .FAILED then some now else none }
  else r

/-- The per-session body of the active-sync loop (the source's try block;
a failed `getSession` or `listActivities` is caught and leaves the state of
that particular effect unchanged). -/
def activeSyncStep (b : Behaviour) (now : Nat)
    (st : List SessionRecord × List ActivityRecord) (dbs : SessionRecord) :
    List SessionRecord × List ActivityRecord :=
  match b.getSessionR dbs.id with
  | .error _ => st
  | .ok rs =>
    let se := if stateStr rs ≠ dbs.status then st.1.map (applyUpdate rs now dbs.id) else st.1
    let lg := match b.listActivitiesR dbs.id with
      | .error _ => st.2
      | .ok acts => syncActivitiesForSession dbs.id acts st.2
    (se, lg)

/-- The filter of the initial `findMany`: status not in [COMPLETED, FAILED]. -/
def isActive (r : SessionRecord) : Bool :=
  !(r.status == "COMPLETED") && !(r.status == "FAILED")

/-- The phase `runActiveSessionSync`: errors of the initial `findMany` and of the KV
freshness write propagate (`.error`); per-session failures are trapped. -/
def runActiveSessionSync (b : Behaviour) (now : Nat) (sess : List SessionRecord)
    (lg : List ActivityRecord) :
    Except String (List SessionRecord × List ActivityRecord) :=
  if !b.findManyActiveOk then .error "ACTIVE_FINDMANY"
  else
    let res := (sess.filter isActive).foldl (activeSyncStep b now) (sess, lg)
    if b.kvPresent && !b.kvPutOk then .error "KV_PUT" else .ok res

/-! ## Stuck-session detection (`checkForStuckSessions`) -/

/-- The status literal used by the stuck-session `findMany` filter in
`src/services/jules-monitor.ts`. -/
def stuckQuery : String := "WAITING_FOR_USER_FEEDBACK"

/-- The sessions selected by the stuck-session query. -/
def checkForStuckSessions (sess : List SessionRecord) : List SessionRecord :=
  sess.filter (fun r => r.status == stuckQuery)

/-- The intervention loop: one `overseer.checkOnJules` call per stuck session,
not wrapped in any try/catch — the first failure aborts the phase and
propagates.  Returns the intervention count on full success. -/
def countInterventions (b : Behaviour) : List SessionRecord → Nat → Except String Nat
  | [], n => .ok n
  | s :: rest, n =>
    match b.checkOnJulesR s.id with
    | .error e => .error e
    | .ok _ => countInterventions b rest (n + 1)

/-- The stuck query `checkForStuckSessions` plus the intervention loop as invoked by `run()`. -/
def runStuckPhase (b : Behaviour) (sess : List SessionRecord) : Except String Nat :=
  if !b.findManyStuckOk then .error "STUCK_FINDMANY"
  else countInterventions b (checkForStuckSessions sess) 0

/-! ## Scheduler (`run`) -/

/-- The counts returned by `run()`. -/
structure RunCounts where
  synced : Nat
  checked : Nat
  interventions : Nat
deriving DecidableEq, Repr

/-- Discovery phase with its own whole-body try/catch: a remote-list failure is trapped
and yields count 0 with the store unchanged. -/
def syncExternalSessionsE (b : Behaviour) (store : List SessionRecord) :
    Nat × List SessionRecord :=
  match b.listSessionsR with
  | .error _ => (0, store)
  | .ok remote => syncExternalSessions remote store

/-- The scheduler `run()`: Discovery, then ActiveSessionSync, then the stuck/intervention
phase.  Failures escaping the second or third phase escape `run()` itself. -/
def runMonitor (b : Behaviour) (now : Nat) (sess : List SessionRecord)
    (lg : List ActivityRecord) :
    Except String (RunCounts × List SessionRecord × List ActivityRecord) :=
  let d := syncExternalSessionsE b sess
  match runActiveSessionSync b now d.2 lg with
  | .error e => .error e
  | .ok res =>
    match runStuckPhase b res.1 with
    | .error e => .error e
    | .ok n => .ok ({ synced := d.1, checked := 0, interventions := n }, res.1, res.2)

/-! ## Intervention dispatcher (`handleUserFeedback`, `part_000`)

The dispatcher extracts the latest agent question from a page of activities,
performs the loop-prevention query, obtains a reply (Overseer or fallback —
an external collaborator, injected here as the pass's `resp`), sends it, and
logs one interaction row per attempt. -/

/-- The inputs of one dispatcher invocation: the activity page fetched for the
session, the generated reply text, whether `sendMessage` succeeds, and the
error text otherwise. -/
structure FeedbackPass where
  sessionId : String
  acts : List Activity
  resp : String
  sendOk : Bool
  errText : String
deriving Repr

/-- The loop-prevention predicate: an AGENT_REPLY row for this session whose
`julesMessage` exactly equals the question. -/
def replyMatches (s q : String) (r : InteractionRecord) : Bool :=
  r.sessionId == s && r.type == "AGENT_REPLY" && r.julesMessage == some q

/-- The lookup `activities.find(a => a.agentMessaged)` followed by the JS-truthiness
check on `.agentMessaged.agentMessage` (an absent or empty message means
there is no question to answer). -/
def extractQuestion (acts : List Activity) : Option String :=
  match acts.find? (fun a => a.agentMessage.isSome) with
  | none => none
  | some a =>
    match a.agentMessage with
    | none => none
    | some q => if q == "" then none else some q

/-- The dispatcher `handleUserFeedback`: returns whether a reply was sent and the updated
interaction log. -/
def handleUserFeedback (p : FeedbackPass) (ints : List InteractionRecord) :
    Bool × List InteractionRecord :=
  match extractQuestion p.acts with
  | none => (false, ints)
  | some q =>
    if ints.any (replyMatches p.sessionId q) then (false, ints)
    else if p.sendOk then
      (true, ints ++ [{ sessionId := p.sessionId
                        type := "AGENT_REPLY"
                        julesMessage := some q
                        agentResponse := some p.resp
                        isSuccess := true
                        errorMessage := none }])
    else
      (false, ints ++ [{ sessionId := p.sessionId
                         type := "ERROR"
                         julesMessage := some q
                         agentResponse := none
                         isSuccess := false
                         errorMessage := some ("Failed to send intervention: " ++ p.errText) }])

/-- A sequence of reconciliation passes, each dispatching `handleUserFeedback`
once with its own observed activities and send outcome. -/
def runFeedbackPasses (ps : List FeedbackPass) (ints : List InteractionRecord) :
    List InteractionRecord :=
  ps.foldl (fun st p => (handleUserFeedback p st).2) ints

/-- The number of AGENT_REPLY rows for `(s, q)` in the interaction log. -/
def agentReplyCount (ints : List InteractionRecord) (s q : String) : Nat :=
  (ints.filter (replyMatches s q)).length

/-! ## Carrying a remote activity id

An `ActivityLog` row carries remote id `rid` when its metadata literally opens
with the serialized `remote_id` field holding `rid` — this is the idempotency
key the spec says is "embedded in metadata". -/

/-- Row `r` is a mirror row of session `s` whose embedded remote id is `rid`. -/
def carriesB (s rid : String) (r : ActivityRecord) : Bool :=
  r.sessionId == s && strStarts (metaKeyPre ++ rid ++ "\"").data r.metadata.data

/-- The number of rows for session `s` carrying remote id `rid`. -/
def carryCount (lg : List ActivityRecord) (s rid : String) : Nat :=
  (lg.filter (carriesB s rid)).length

/-! ## Reachable session stores

The stores reachable from the empty store by the two core session-mutating
operations named in the spec: discovery adoption and the active-sync status
update. -/

/-- Session stores reachable by the monitor's store-mutating phases. -/
inductive Reachable : List SessionRecord → Prop where
  | init : Reachable []
  | discover (remote : List RemoteSession) {sess : List SessionRecord} :
      Reachable sess → Reachable (syncExternalSessions remote sess).2
  | sync (b : Behaviour) (now : Nat) (lg : List ActivityRecord)
      {sess : List SessionRecord} {out : List SessionRecord × List ActivityRecord} :
      Reachable sess → runActiveSessionSync b now sess lg = .ok out → Reachable out.1

/-! ## Interactive smart poller (`smart-poller.ts`) -/

/-- The option resolution of the `SmartPoller` constructor:
`intervalMs || 5000`, `timeoutMs || 3600000` (0 is falsy), `autoApprove ?? true`. -/
structure PollOpts where
  intervalMs : Nat
  timeoutMs : Nat
  autoApprove : Bool
deriving DecidableEq, Repr

/-- Build the effective options from the caller-supplied partial options. -/
def resolveOpts (intervalMs timeoutMs : Option Nat) (autoApprove : Option Bool) : PollOpts :=
  { intervalMs := match intervalMs with
      | none => 5000
      | some n => if n == 0 then 5000 else n
    timeoutMs := match timeoutMs with
      | none => 3600000
      | some n => if n == 0 then 3600000 else n
    autoApprove := autoApprove.getD true }

/-- The classification carried by a `PollResult`. -/
inductive PollStatus where
  | COMPLETED
  | FAILED
  | NEEDS_INPUT
  | TIMEOUT
deriving DecidableEq, Repr

/-- The observable outcome of one `monitor()` run: the returned status, the
final fetched state, the optional `lastMessage`, and how many `approvePlan`
and `listActivities` calls were made along the way. -/
structure PollOutcome where
  status : PollStatus
  finalState : SessionState
  lastMessage : Option String
  approveCalls : Nat
  activityFetches : Nat
deriving DecidableEq, Repr

/-- The extraction `activities.activities?.[0]?.agentMessaged?.agentMessage || default`:
the message shown on AWAITING_USER_FEEDBACK (empty string is falsy in JS). -/
def extractFeedbackMsg (acts : List Activity) : String :=
  match acts.head? with
  | some act =>
    match act.agentMessage with
    | some m => if m == "" then "Agent is requesting feedback." else m
    | none => "Agent is requesting feedback."
  | none => "Agent is requesting feedback."

/-- The poller's while loop.  `g i` is the result of the `i`-th `getSession`
call, `la i` the result of the `i`-th `listActivities` call; `el` is the
elapsed wall-clock time, advanced by 1000 ms after an auto-approval and by
`intervalMs` after a plain wait.  The fuel only bounds recursion; with
positive interval and fuel `timeoutMs + 1` it never runs out before the
deadline check fires. -/
def monitorLoop (o : PollOpts) (g : Nat → SessionState) (la : Nat → List Activity) :
    Nat → Nat → Nat → Nat → Nat → PollOutcome
  | 0, gi, ai, _, ap =>
    { status := .TIMEOUT, finalState := g gi, lastMessage := none
      approveCalls := ap, activityFetches := ai }
  | fuel + 1, gi, ai, el, ap =>
    if el < o.timeoutMs then
      match g gi with
      | .COMPLETED =>
        { status := .COMPLETED, finalState := .COMPLETED, lastMessage := none
          approveCalls := ap, activityFetches := ai }
      | .FAILED =>
        { status := .FAILED, finalState := .FAILED, lastMessage := none
          approveCalls := ap, activityFetches := ai }
      | .AWAITING_PLAN_APPROVAL =>
        if o.autoApprove then
          monitorLoop o g la fuel (gi + 1) ai (el + 1000) (ap + 1)
        else
          { status := .NEEDS_INPUT, finalState := .AWAITING_PLAN_APPROVAL, lastMessage := none
            approveCalls := ap, activityFetches := ai }
      | .AWAITING_USER_FEEDBACK =>
        { status := .NEEDS_INPUT, finalState := .AWAITING_USER_FEEDBACK
          lastMessage := some (extractFeedbackMsg (la ai))
          approveCalls := ap, activityFetches := ai + 1 }
      | .PAUSED =>
        { status := .NEEDS_INPUT, finalState := .PAUSED, lastMessage := none
          approveCalls := ap, activityFetches := ai }
      | _ => monitorLoop o g la fuel (gi + 1) ai (el + o.intervalMs) ap
    else
      { status := .TIMEOUT, finalState := g gi, lastMessage := none
        approveCalls := ap, activityFetches := ai }

/-- The entry `SmartPoller.monitor`: run the loop from time 0 with fresh call counters. -/
def monitor (o : PollOpts) (g : Nat → SessionState) (la : Nat → List Activity) :
    PollOutcome :=
  monitorLoop o g la (o.timeoutMs + 1) 0 0 0 0

/-! ## Concrete scenario inputs -/

/-- Scenario C's remote activity `sessions/s1/activities/a1`. -/
def actA1 : Activity :=
  { name := "sessions/s1/activities/a1", description := "did a thing"
    createTime := "2025-01-01T00:00:00Z", agentMessage := none }

/-- An activity whose derived remote id is `abc`. -/
def actAbc : Activity :=
  { name := "sessions/s1/activities/abc", description := "first"
    createTime := "t1", agentMessage := none }

/-- An activity whose derived remote id `b` is a substring of `actAbc`'s
stored metadata. -/
def actB : Activity :=
  { name := "sessions/s1/activities/b", description := "second"
    createTime := "t2", agentMessage := none }

/-- Scenario A's first remote session. -/
def remoteS1 : RemoteSession :=
  { id := "s1", title := some "one", state := .IN_PROGRESS, updateTime := 1 }

/-- Scenario A's second remote session. -/
def remoteS2 : RemoteSession :=
  { id := "s2", title := some "two", state := .QUEUED, updateTime := 2 }

/-- A remote session that is already COMPLETED when discovery first sees it. -/
def remoteDone : RemoteSession :=
  { id := "s9", title := some "done", state := .COMPLETED, updateTime := 3 }

/-- A stored session stuck in the enum's awaiting-user-feedback state. -/
def stuckRecord : SessionRecord :=
  { id := "s1", title := none, status := stateStr .AWAITING_USER_FEEDBACK
    origin := "EXTERNAL", originalPrompt := "External Session"
    updatedAt := 0, completedAt := none }

/-- Scenario B's stored session: `s1` with status IN_PROGRESS. -/
def s1InProgress : SessionRecord :=
  { id := "s1", title := some "one", status := "IN_PROGRESS"
    origin := "EXTERNAL", originalPrompt := "External Session"
    updatedAt := 1, completedAt := none }

/-- Scenario D's question activity. -/
def askDb : Activity :=
  { name := "sessions/s3/activities/q1", description := "question"
    createTime := "t3", agentMessage := some "Which database?" }

/-- Scenario D's dispatcher pass: the question is extracted, the reply is
generated and the send succeeds. -/
def passD : FeedbackPass :=
  { sessionId := "s3", acts := [askDb], resp := "Use D1.", sendOk := true, errText := "" }

/-- A behaviour whose remote calls all fail but whose store and KV calls all
succeed. -/
def bRemoteDown : Behaviour :=
  { listSessionsR := .error "remote down"
    findManyActiveOk := true
    getSessionR := fun _ => .error "remote down"
    listActivitiesR := fun _ => .error "remote down"
    kvPresent := true
    kvPutOk := true
    findManyStuckOk := true
    checkOnJulesR := fun _ => .ok () }

/-- A behaviour where the active-sync `findMany` store query fails and
everything else succeeds. -/
def bStoreFail : Behaviour :=
  { listSessionsR := .ok []
    findManyActiveOk := false
    getSessionR := fun _ => .ok .IN_PROGRESS
    listActivitiesR := fun _ => .ok []
    kvPresent := true
    kvPutOk := true
    findManyStuckOk := true
    checkOnJulesR := fun _ => .ok () }

/-- An all-success behaviour whose `getSession` always reports COMPLETED and
whose remote lists are empty. -/
def bAllCompleted : Behaviour :=
  { listSessionsR := .ok []
    findManyActiveOk := true
    getSessionR := fun _ => .ok .COMPLETED
    listActivitiesR := fun _ => .ok []
    kvPresent := false
    kvPutOk := true
    findManyStuckOk := true
    checkOnJulesR := fun _ => .ok () }

/-- Scenario E's `getSession` result sequence. -/
def scenarioEStates : Nat → SessionState
  | 0 => .AWAITING_PLAN_APPROVAL
  | 1 => .AWAITING_PLAN_APPROVAL
  | 2 => .IN_PROGRESS
  | _ => .COMPLETED

/-- A remote session that always reports PAUSED. -/
def pausedStates : Nat → SessionState := fun _ => .PAUSED

/-- A remote session that always reports AWAITING_USER_FEEDBACK. -/
def feedbackStates : Nat → SessionState := fun _ => .AWAITING_USER_FEEDBACK

/-- An activity oracle that never returns any activity. -/
def noActs : Nat → List Activity := fun _ => []

/-- An activity oracle whose every page is the Scenario D question. -/
def askActs : Nat → List Activity := fun _ => [askDb]

/-- The poller options used in the scenarios: defaults with auto-approval. -/
def defaultOpts : PollOpts := resolveOpts none none (some true)

/-! ## Lemmas about the substring test -/

theorem strStarts_self_append (n t : List Char) : strStarts n (n ++ t) = true := by
  induction n with
  | nil => simp [strStarts]
  | cons c cs ih => simp [strStarts, ih]

theorem strStarts_exists_of_eq_true {n m : List Char} (h : strStarts n m = true) :
    ∃ t, m = n ++ t := by
  induction n generalizing m with
  | nil => exact ⟨m, rfl⟩
  | cons c cs ih =>
    cases m with
    | nil => simp [strStarts] at h
    | cons d ds =>
      simp only [strStarts, Bool.and_eq_true, beq_iff_eq] at h
      obtain ⟨t, ht⟩ := ih h.2
      exact ⟨t, by simp [h.1, ht]⟩

theorem strHas_middle (n x t : List Char) : strHas n (x ++ n ++ t) = true := by
  induction x with
  | nil =>
    cases n with
    | nil =>
      cases t with
      | nil => rfl
      | cons d ds => simp [strHas, strStarts]
    | cons c cs =>
      simp only [List.nil_append, List.cons_append, strHas, Bool.or_eq_true]
      exact Or.inl (by simpa using strStarts_self_append (c :: cs) t)
  | cons a as ih =>
    simp only [List.cons_append, strHas, Bool.or_eq_true]
    exact Or.inr (by simpa using ih)

theorem strHas_of_starts {n m : List Char} (h : strStarts n m = true) :
    strHas n m = true := by
  obtain ⟨t, ht⟩ := strStarts_exists_of_eq_true h
  subst ht
  have := strHas_middle n [] t
  simpa using this

theorem strStarts_append_left (A u v : List Char) :
    strStarts (A ++ u) (A ++ v) = strStarts u v := by
  induction A with
  | nil => rfl
  | cons a as ih => simp [strStarts, ih]

theorem strStarts_quote_exact {u v rest : List Char}
    (hu : '"' ∉ u) (hv : '"' ∉ v)
    (h : strStarts (u ++ ['"']) (v ++ '"' :: rest) = true) : u = v := by
  induction u generalizing v with
  | nil =>
    cases v with
    | nil => rfl
    | cons b bs =>
      simp only [List.nil_append, List.cons_append, strStarts, Bool.and_eq_true,
        beq_iff_eq] at h
      exact absurd (by simp [← h.1]) hv
  | cons a as ih =>
    cases v with
    | nil =>
      simp only [List.cons_append, List.nil_append, strStarts, Bool.and_eq_true,
        beq_iff_eq] at h
      exact absurd (by simp [h.1]) hu
    | cons b bs =>
      simp only [List.cons_append, strStarts, Bool.and_eq_true, beq_iff_eq] at h
      have has : as = bs :=
        ih (fun hc => hu (List.mem_cons_of_mem _ hc))
          (fun hc => hv (List.mem_cons_of_mem _ hc)) h.2
      simp [h.1, has]

/-! ## Lemmas about the activity mirror -/

theorem mkMetadata_data (rid : String) (act : Activity) :
    (mkMetadata rid act).data =
      metaKeyPre.data ++ rid.data ++ '"' ::
        (",\"full_resource\":\"" ++ act.name ++ "\",\"type\":\"JULES_SYNC\",\"original_act\":" ++
          actJson act ++ "\x7d").data := by
  have h1 : mkMetadata rid act =
      (metaKeyPre ++ rid ++ "\"") ++
        (",\"full_resource\":\"" ++ act.name ++ "\",\"type\":\"JULES_SYNC\",\"original_act\":" ++
          actJson act ++ "\x7d") := rfl
  rw [h1, String.data_append, String.data_append, String.data_append]
  have h2 : ("\"" : String).data = ['"'] := rfl
  rw [h2]
  simp [List.append_assoc]

theorem carrierKey_data (rid : String) :
    (metaKeyPre ++ rid ++ "\"").data = metaKeyPre.data ++ rid.data ++ ['"'] := by
  rw [String.data_append, String.data_append]

theorem strHas_rid_mkMetadata (rid : String) (act : Activity) :
    strHas rid.data (mkMetadata rid act).data = true := by
  rw [mkMetadata_data]
  exact strHas_middle _ _ _

theorem carriesB_strHas {s rid : String} {r : ActivityRecord} (h : carriesB s rid r = true) :
    (r.sessionId == s && strHas rid.data r.metadata.data) = true := by
  simp only [carriesB, Bool.and_eq_true] at h
  obtain ⟨t, ht⟩ := strStarts_exists_of_eq_true h.2
  rw [Bool.and_eq_true]
  refine ⟨h.1, ?_⟩
  have hm : r.metadata.data = metaKeyPre.data ++ rid.data ++ ('"' :: t) := by
    rw [ht, carrierKey_data]
    simp [List.append_assoc]
  rw [hm]
  exact strHas_middle _ _ _

theorem mkActivityRecord_carries_iff {s rid : String} (act : Activity)
    (h1 : noQuote rid) (h2 : noQuote (lastSegment act.name)) :
    (carriesB s rid (mkActivityRecord s act) = true) ↔ rid = lastSegment act.name := by
  constructor
  · intro h
    simp only [carriesB, mkActivityRecord, Bool.and_eq_true] at h
    have hst := h.2
    rw [carrierKey_data, mkMetadata_data] at hst
    rw [List.append_assoc, List.append_assoc] at hst
    rw [strStarts_append_left] at hst
    exact String.ext (strStarts_quote_exact h1 h2 hst)
  · rintro rfl
    simp only [carriesB, mkActivityRecord, Bool.and_eq_true]
    refine ⟨by simp, ?_⟩
    rw [carrierKey_data, mkMetadata_data]
    rw [List.append_assoc, List.append_assoc]
    rw [strStarts_append_left]
    have : (lastSegment act.name).data ++ '"' ::
        (",\"full_resource\":\"" ++ act.name ++ "\",\"type\":\"JULES_SYNC\",\"original_act\":" ++
          actJson act ++ "\x7d").data =
        ((lastSegment act.name).data ++ ['"']) ++
        (",\"full_resource\":\"" ++ act.name ++ "\",\"type\":\"JULES_SYNC\",\"original_act\":" ++
          actJson act ++ "\x7d").data := by
      simp
    rw [this]
    exact strStarts_self_append _ _

theorem mirrorHit_false_carryCount {s rid : String} {lg : List ActivityRecord}
    (h : mirrorHit s rid lg = false) : carryCount lg s rid = 0 := by
  simp only [carryCount, List.length_eq_zero, List.filter_eq_nil_iff]
  intro r hr hc
  simp only [mirrorHit, List.any_eq_false] at h
  exact absurd (carriesB_strHas hc) (by simpa using h r hr)

theorem mirrorStep_carryCount_le {s rid : String} {act : Activity} {lg : List ActivityRecord}
    (h1 : noQuote rid) (h2 : noQuote (lastSegment act.name))
    (h : carryCount lg s rid ≤ 1) :
    carryCount (mirrorStep s lg act) s rid ≤ 1 := by
  unfold mirrorStep
  split
  · exact h
  · rename_i hmiss
    have hmiss' : mirrorHit s (lastSegment act.name) lg = false := by
      simpa using hmiss
    by_cases hc : carriesB s rid (mkActivityRecord s act) = true
    · have hrid : rid = lastSegment act.name := (mkActivityRecord_carries_iff act h1 h2).mp hc
      subst hrid
      have h0 : carryCount lg s (lastSegment act.name) = 0 := mirrorHit_false_carryCount hmiss'
      simp only [carryCount] at h0 ⊢
      rw [List.filter_append, List.length_append, h0]
      simp [List.filter_cons, hc]
    · simp only [carryCount] at h ⊢
      rw [List.filter_append, List.length_append]
      simpa [List.filter_cons, hc] using h

theorem sync_carryCount_le {s rid : String} {acts : List Activity} {lg : List ActivityRecord}
    (hq : ∀ a ∈ acts, noQuote (lastSegment a.name)) (h1 : noQuote rid)
    (h : carryCount lg s rid ≤ 1) :
    carryCount (syncActivitiesForSession s acts lg) s rid ≤ 1 := by
  induction acts generalizing lg with
  | nil => simpa [syncActivitiesForSession] using h
  | cons a as ih =>
    simp only [syncActivitiesForSession, List.foldl_cons]
    exact ih (fun x hx => hq x (List.mem_cons_of_mem _ hx))
      (mirrorStep_carryCount_le h1 (hq a (List.mem_cons_self _ _)) h)

theorem mem_mirrorStep {r : ActivityRecord} {lg : List ActivityRecord} (s : String)
    (act : Activity) (h : r ∈ lg) : r ∈ mirrorStep s lg act := by
  unfold mirrorStep
  split
  · exact h
  · exact List.mem_append_left _ h

theorem mem_sync {r : ActivityRecord} {lg : List ActivityRecord} (s : String)
    (acts : List Activity) (h : r ∈ lg) : r ∈ syncActivitiesForSession s acts lg := by
  induction acts generalizing lg with
  | nil => simpa [syncActivitiesForSession] using h
  | cons a as ih =>
    simp only [syncActivitiesForSession, List.foldl_cons]
    exact ih (mem_mirrorStep s a h)

theorem mirrorHit_mono {s rid : String} {lg lg' : List ActivityRecord}
    (hsub : ∀ r ∈ lg, r ∈ lg') (h : mirrorHit s rid lg = true) :
    mirrorHit s rid lg' = true := by
  simp only [mirrorHit, List.any_eq_true] at *
  obtain ⟨r, hr, hp⟩ := h
  exact ⟨r, hsub r hr, hp⟩

theorem sync_covers {s : String} (acts : List Activity) (lg : List ActivityRecord) :
    ∀ a ∈ acts, mirrorHit s (lastSegment a.name) (syncActivitiesForSession s acts lg) = true := by
  induction acts generalizing lg with
  | nil => simp
  | cons b bs ih =>
    intro a ha
    simp only [syncActivitiesForSession, List.foldl_cons]
    rcases List.mem_cons.mp ha with rfl | ha'
    · have hstep : mirrorHit s (lastSegment a.name) (mirrorStep s lg a) = true := by
        unfold mirrorStep
        split
        · rename_i hhit
          exact hhit
        · simp only [mirrorHit, List.any_eq_true]
          refine ⟨mkActivityRecord s a, List.mem_append_right _ (by simp), ?_⟩
          rw [Bool.and_eq_true]
          exact ⟨by simp [mkActivityRecord], strHas_rid_mkMetadata _ _⟩
      exact mirrorHit_mono (fun r hr => mem_sync s bs hr) hstep
    · exact ih (mirrorStep s lg b) a ha'

theorem sync_of_covered {s : String} {acts : List Activity} {lg : List ActivityRecord}
    (h : ∀ a ∈ acts, mirrorHit s (lastSegment a.name) lg = true) :
    syncActivitiesForSession s acts lg = lg := by
  induction acts with
  | nil => rfl
  | cons a as ih =>
    simp only [syncActivitiesForSession, List.foldl_cons]
    have hstep : mirrorStep s lg a = lg := by
      unfold mirrorStep
      simp [h a (List.mem_cons_self _ _)]
    rw [hstep]
    exact ih (fun x hx => h x (List.mem_cons_of_mem _ hx))

/-! ## Lemmas about the intervention dispatcher -/

theorem agentReplyCount_append (l1 l2 : List InteractionRecord) (s q : String) :
    agentReplyCount (l1 ++ l2) s q = agentReplyCount l1 s q + agentReplyCount l2 s q := by
  simp [agentReplyCount, List.filter_append]

theorem any_replyMatches_false {ints : List InteractionRecord} {s q : String}
    (h : ints.any (replyMatches s q) = false) : agentReplyCount ints s q = 0 := by
  simp only [agentReplyCount, List.length_eq_zero, List.filter_eq_nil_iff]
  intro r hr
  simp only [List.any_eq_false] at h
  simpa using h r hr

theorem replyCount_append_single {ints : List InteractionRecord} {s q : String}
    (r : InteractionRecord) (h : agentReplyCount ints s q ≤ 1)
    (h2 : replyMatches s q r = true → agentReplyCount ints s q = 0) :
    agentReplyCount (ints ++ [r]) s q ≤ 1 := by
  rw [agentReplyCount_append]
  by_cases hm : replyMatches s q r = true
  · rw [h2 hm]
    simp [agentReplyCount, List.filter_cons, hm]
  · have hr0 : agentReplyCount [r] s q = 0 := by
      simp [agentReplyCount, List.filter_cons, hm]
    simpa [hr0] using h

theorem handleUserFeedback_replyCount_le (p : FeedbackPass) (ints : List InteractionRecord)
    (s q : String) (h : agentReplyCount ints s q ≤ 1) :
    agentReplyCount (handleUserFeedback p ints).2 s q ≤ 1 := by
  unfold handleUserFeedback
  cases hq : extractQuestion p.acts with
  | none => exact h
  | some q' =>
    by_cases hhit : ints.any (replyMatches p.sessionId q') = true
    · simpa [hhit] using h
    · have hhit' : ints.any (replyMatches p.sessionId q') = false := by simpa using hhit
      by_cases hsend : p.sendOk = true
      · dsimp only
        rw [if_neg hhit, if_pos hsend]
        refine replyCount_append_single _ h (fun hm => ?_)
        simp only [replyMatches, Bool.and_eq_true, beq_iff_eq] at hm
        obtain ⟨⟨hs, -⟩, hqq⟩ := hm
        have hq'q : q' = q := by simpa using hqq
        subst hs
        subst hq'q
        exact any_replyMatches_false hhit'
      · dsimp only
        rw [if_neg hhit, if_neg hsend]
        refine replyCount_append_single _ h (fun hm => ?_)
        simp [replyMatches] at hm

/-! ## Claim theorems -/

/-- C1: for every session `s` and question text `q`, across any number of
reconciliation passes at most one AGENT_REPLY InteractionRecord with
`sessionId = s` and `julesMessage = q` ever exists — the dispatcher queries
for an existing AGENT_REPLY with the exact question before sending and skips
the send if one is found, so the count stays at most 1. -/
theorem agent_reply_at_most_once (s q : String) (ps : List FeedbackPass)
    (ints : List InteractionRecord) (h : agentReplyCount ints s q ≤ 1) :
    agentReplyCount (runFeedbackPasses ps ints) s q ≤ 1 := by
  induction ps generalizing ints with
  | nil => simpa [runFeedbackPasses] using h
  | cons p ps ih =>
    simp only [runFeedbackPasses, List.foldl_cons]
    exact ih _ (handleUserFeedback_replyCount_le p ints s q h)

/-- Witness for C1: Scenario D run twice from an empty interaction log —
after two passes asking the same question the AGENT_REPLY count for
`("s3", "Which database?")` is at most one. -/
theorem agent_reply_at_most_once_witness :
    agentReplyCount (runFeedbackPasses [passD, passD] []) "s3" "Which database?" ≤ 1 :=
  agent_reply_at_most_once "s3" "Which database?" [passD, passD] [] (by decide)

/-- C2: the activity mirror is idempotent — after any number of mirror passes
over the same remote activity list the store holds at most one ActivityRecord
for the session carrying a given remote id, and mirroring the same list a
second time inserts zero additional records. -/
theorem activity_mirror_idempotent (s rid : String) (acts : List Activity)
    (lg : List ActivityRecord)
    (hq : ∀ a ∈ acts, noQuote (lastSegment a.name)) (h1 : noQuote rid)
    (h : carryCount lg s rid ≤ 1) :
    (∀ n : Nat, carryCount ((syncActivitiesForSession s acts)^[n] lg) s rid ≤ 1) ∧
    syncActivitiesForSession s acts (syncActivitiesForSession s acts lg) =
      syncActivitiesForSession s acts lg := by
  constructor
  · intro n
    induction n with
    | zero => simpa using h
    | succ k ih =>
      rw [Function.iterate_succ_apply']
      exact sync_carryCount_le hq h1 ih
  · exact sync_of_covered (sync_covers acts lg)

/-- Witness for C2: Scenario C — the remote activity
`sessions/s1/activities/a1` mirrored twice from an empty store leaves at most
one record carrying `a1`, and the second pass inserts nothing. -/
theorem activity_mirror_idempotent_witness :
    (carryCount ((syncActivitiesForSession "s1" [actA1])^[2] []) "s1" "a1" ≤ 1) ∧
    syncActivitiesForSession "s1" [actA1] (syncActivitiesForSession "s1" [actA1] []) =
      syncActivitiesForSession "s1" [actA1] [] :=
  ⟨(activity_mirror_idempotent "s1" "a1" [actA1] [] (by decide) (by decide) (by decide)).1 2,
   (activity_mirror_idempotent "s1" "a1" [actA1] [] (by decide) (by decide) (by decide)).2⟩

/-- C3: Scenario A — with the store empty and the remote listing `s1` and
`s2`, discovery adopts both with origin EXTERNAL and returns 2; an immediate
second discovery over the unchanged remote list returns 0, inserts nothing
and leaves exactly the same 2 records. -/
theorem discovery_idempotent_scenarioA :
    (syncExternalSessions [remoteS1, remoteS2] []).1 = 2 ∧
    ((syncExternalSessions [remoteS1, remoteS2] []).2.map SessionRecord.id) = ["s1", "s2"] ∧
    (∀ r ∈ (syncExternalSessions [remoteS1, remoteS2] []).2, r.origin = "EXTERNAL") ∧
    (syncExternalSessions [remoteS1, remoteS2]
      (syncExternalSessions [remoteS1, remoteS2] []).2).1 = 0 ∧
    (syncExternalSessions [remoteS1, remoteS2]
      (syncExternalSessions [remoteS1, remoteS2] []).2).2 =
      (syncExternalSessions [remoteS1, remoteS2] []).2 ∧
    (syncExternalSessions [remoteS1, remoteS2]
      (syncExternalSessions [remoteS1, remoteS2] []).2).2.length = 2 := by
  decide

set_option maxRecDepth 100000 in
/-- C10: the mirror's duplicate check is substring containment over the
serialized metadata, not exact-key equality — the activity with derived id
`b` (distinct from `abc`) is skipped because `b` occurs inside the metadata
JSON of the record stored for `abc`, so mirroring `[abc, b]` produces exactly
the same single-record store as mirroring `[abc]` alone. -/
theorem mirror_dedup_by_substring :
    lastSegment actB.name ≠ lastSegment actAbc.name ∧
    strHas (lastSegment actB.name).data (mkActivityRecord "s1" actAbc).metadata.data = true ∧
    syncActivitiesForSession "s1" [actAbc, actB] [] = syncActivitiesForSession "s1" [actAbc] [] ∧
    syncActivitiesForSession "s1" [actAbc, actB] [] = [mkActivityRecord "s1" actAbc] := by
  decide

/-! ## Lemmas about active-session sync -/

theorem activeSyncStep_untouched {b : Behaviour} {now : Nat}
    {st : List SessionRecord × List ActivityRecord} {dbs r : SessionRecord}
    (hne : dbs.id ≠ r.id) (hr : r ∈ st.1) : r ∈ (activeSyncStep b now st dbs).1 := by
  unfold activeSyncStep
  cases b.getSessionR dbs.id with
  | error e => exact hr
  | ok rs =>
    dsimp only
    split
    · have hfix : applyUpdate rs now dbs.id r = r := by
        unfold applyUpdate
        rw [if_neg]
        simp only [beq_iff_eq]
        exact fun hcontra => hne hcontra.symm
      exact hfix ▸ List.mem_map_of_mem _ hr
    · exact hr

theorem foldl_activeSync_untouched {b : Behaviour} {now : Nat}
    (l : List SessionRecord) (st : List SessionRecord × List ActivityRecord)
    {r : SessionRecord} (hl : ∀ dbs ∈ l, dbs.id ≠ r.id) (hr : r ∈ st.1) :
    r ∈ (l.foldl (activeSyncStep b now) st).1 := by
  induction l generalizing st with
  | nil => simpa using hr
  | cons dbs rest ih =>
    simp only [List.foldl_cons]
    exact ih _ (fun d hd => hl d (List.mem_cons_of_mem _ hd))
      (activeSyncStep_untouched (hl dbs (List.mem_cons_self _ _)) hr)

theorem activeSyncStep_hit {b : Behaviour} {now : Nat}
    {st : List SessionRecord × List ActivityRecord} {dbs r : SessionRecord}
    (hr : r ∈ st.1) (hid : r.id = dbs.id)
    (hok : b.getSessionR dbs.id = .ok .COMPLETED) (hst : dbs.status ≠ "COMPLETED") :
    ∃ r' ∈ (activeSyncStep b now st dbs).1,
      r'.id = r.id ∧ r'.status = "COMPLETED" ∧ r'.completedAt = some now := by
  unfold activeSyncStep
  rw [hok]
  dsimp only
  rw [if_pos (fun hcontra => hst hcontra.symm)]
  refine ⟨applyUpdate .COMPLETED now dbs.id r, List.mem_map_of_mem _ hr, ?_⟩
  unfold applyUpdate
  rw [if_pos (by simpa using hid)]
  refine ⟨rfl, rfl, ?_⟩
  simp

theorem runActiveSessionSync_ok {b : Behaviour} {now : Nat}
    {sess : List SessionRecord} {lg : List ActivityRecord}
    {out : List SessionRecord × List ActivityRecord}
    (h : runActiveSessionSync b now sess lg = .ok out) :
    out = (sess.filter isActive).foldl (activeSyncStep b now) (sess, lg) := by
  unfold runActiveSessionSync at h
  by_cases hfm : b.findManyActiveOk
  · rw [if_neg (by simp [hfm])] at h
    dsimp only at h
    by_cases hkv : (b.kvPresent && !b.kvPutOk) = true
    · rw [if_pos hkv] at h
      exact absurd h (by simp)
    · rw [if_neg hkv] at h
      exact (Except.ok.injEq _ _ ▸ h).symm
  · rw [if_pos (by simpa using hfm)] at h
    exact absurd h (by simp)

theorem discoverStep_preserves {st : Nat × List SessionRecord} {ext : RemoteSession}
    (h : ∀ r ∈ st.2, r.completedAt ≠ none → r.status = "COMPLETED" ∨ r.status = "FAILED") :
    ∀ r ∈ (discoverStep st ext).2,
      r.completedAt ≠ none → r.status = "COMPLETED" ∨ r.status = "FAILED" := by
  unfold discoverStep
  split
  · exact h
  · intro r hr
    rcases List.mem_append.mp hr with hold | hnew
    · exact h r hold
    · intro hc
      exact absurd (by simpa using hnew : r = _) (fun he => hc (by rw [he]))

theorem discover_foldl_preserves (remote : List RemoteSession) (st : Nat × List SessionRecord)
    (h : ∀ r ∈ st.2, r.completedAt ≠ none → r.status = "COMPLETED" ∨ r.status = "FAILED") :
    ∀ r ∈ (remote.foldl discoverStep st).2,
      r.completedAt ≠ none → r.status = "COMPLETED" ∨ r.status = "FAILED" := by
  induction remote generalizing st with
  | nil => simpa using h
  | cons ext rest ih =>
    simp only [List.foldl_cons]
    exact ih _ (discoverStep_preserves h)

theorem activeSyncStep_preserves {b : Behaviour} {now : Nat}
    {st : List SessionRecord × List ActivityRecord} {dbs : SessionRecord}
    (h : ∀ r ∈ st.1, r.completedAt ≠ none → r.status = "COMPLETED" ∨ r.status = "FAILED") :
    ∀ r ∈ (activeSyncStep b now st dbs).1,
      r.completedAt ≠ none → r.status = "COMPLETED" ∨ r.status = "FAILED" := by
  unfold activeSyncStep
  cases b.getSessionR dbs.id with
  | error e => exact h
  | ok rs =>
    dsimp only
    split
    · intro r' hr'
      obtain ⟨r0, hr0, rfl⟩ := List.mem_map.mp hr'
      unfold applyUpdate
      split
      · dsimp only
        intro hc
        by_cases hterm : rs = SessionState.COMPLETED ∨ rs = SessionState.FAILED
        · rcases hterm with hrs | hrs <;> subst hrs
          · exact Or.inl rfl
          · exact Or.inr rfl
        · rw [if_neg hterm] at hc
          exact absurd rfl hc
      · exact h r0 hr0
    · exact h

theorem activeSync_foldl_preserves {b : Behaviour} {now : Nat}
    (l : List SessionRecord) (st : List SessionRecord × List ActivityRecord)
    (h : ∀ r ∈ st.1, r.completedAt ≠ none → r.status = "COMPLETED" ∨ r.status = "FAILED") :
    ∀ r ∈ (l.foldl (activeSyncStep b now) st).1,
      r.completedAt ≠ none → r.status = "COMPLETED" ∨ r.status = "FAILED" := by
  induction l generalizing st with
  | nil => simpa using h
  | cons dbs rest ih =>
    simp only [List.foldl_cons]
    exact ih _ (activeSyncStep_preserves h)

/-- C4 (counterexample): the claimed "completedAt non-null iff status
terminal" invariant fails at a reachable store — discovering a remote session
that is already COMPLETED creates a record with status COMPLETED and
`completedAt = null`. -/
theorem completedAt_iff_fails_on_discovery :
    Reachable (syncExternalSessions [remoteDone] []).2 ∧
    ∃ r ∈ (syncExternalSessions [remoteDone] []).2,
      r.status = "COMPLETED" ∧ r.completedAt = none :=
  ⟨Reachable.discover [remoteDone] Reachable.init, by decide⟩

/-- C4 (amended): at every store reachable by discovery adoption and
active-sync status updates, a non-null `completedAt` implies the status is
COMPLETED or FAILED; the converse direction is not maintained (see the
counterexample). -/
theorem completedAt_nonnull_implies_terminal {sess : List SessionRecord}
    (h : Reachable sess) :
    ∀ r ∈ sess, r.completedAt ≠ none → r.status = "COMPLETED" ∨ r.status = "FAILED" := by
  induction h with
  | init => simp
  | discover remote _ ih => exact discover_foldl_preserves remote _ ih
  | sync b now lg _ heq ih =>
    rw [runActiveSessionSync_ok heq]
    exact activeSync_foldl_preserves _ _ ih

/-- Witness for C4 (amended): the record reached by discovering `s1` and then
syncing it to COMPLETED has a non-null `completedAt`, and the invariant
applied at it yields a terminal status. -/
theorem completedAt_nonnull_implies_terminal_witness :
    ({ id := "s1", title := some "one", status := "COMPLETED", origin := "EXTERNAL",
       originalPrompt := "External Session", updatedAt := 1,
       completedAt := some 5 } : SessionRecord).status = "COMPLETED" ∨
    ({ id := "s1", title := some "one", status := "COMPLETED", origin := "EXTERNAL",
       originalPrompt := "External Session", updatedAt := 1,
       completedAt := some 5 } : SessionRecord).status = "FAILED" :=
  completedAt_nonnull_implies_terminal
    (@Reachable.sync bAllCompleted 5 [] (syncExternalSessions [remoteS1] []).2
      ([{ id := "s1", title := some "one", status := "COMPLETED", origin := "EXTERNAL",
          originalPrompt := "External Session", updatedAt := 1,
          completedAt := some 5 }], [])
      (Reachable.discover [remoteS1] Reachable.init) rfl)
    _ (by decide) (by decide)

/-- C5: if the store holds a session with status IN_PROGRESS and the remote
status fetch for it returns COMPLETED, then after a completed syncActive pass
the stored record has status COMPLETED and `completedAt = some now`. -/
theorem active_sync_marks_completed (b : Behaviour) (now : Nat)
    (sess : List SessionRecord) (lg : List ActivityRecord) (r : SessionRecord)
    (hnd : (sess.map SessionRecord.id).Nodup)
    (hmem : r ∈ sess) (hst : r.status = "IN_PROGRESS")
    (hok : b.getSessionR r.id = .ok .COMPLETED)
    (hfm : b.findManyActiveOk = true)
    (hkv : (b.kvPresent && !b.kvPutOk) = false) :
    ∃ out, runActiveSessionSync b now sess lg = .ok out ∧
      ∃ r' ∈ out.1, r'.id = r.id ∧ r'.status = "COMPLETED" ∧ r'.completedAt = some now := by
  have hrok : runActiveSessionSync b now sess lg =
      .ok ((sess.filter isActive).foldl (activeSyncStep b now) (sess, lg)) := by
    unfold runActiveSessionSync
    rw [if_neg (by simp [hfm]), if_neg (by simp [hkv])]
  refine ⟨_, hrok, ?_⟩
  have hactive : r ∈ sess.filter isActive :=
    List.mem_filter.mpr ⟨hmem, by simp [isActive, hst]⟩
  obtain ⟨l1, l2, hsplit⟩ := List.append_of_mem hactive
  have hnodup : ((sess.filter isActive).map SessionRecord.id).Nodup :=
    hnd.sublist ((sess.filter_sublist).map SessionRecord.id)
  rw [hsplit] at hnodup
  simp only [List.map_append, List.map_cons, List.nodup_append, List.nodup_cons] at hnodup
  have hl1 : ∀ dbs ∈ l1, dbs.id ≠ r.id := by
    intro dbs hd hcontra
    exact hnodup.2.2 (hcontra ▸ List.mem_map_of_mem SessionRecord.id hd)
      (List.mem_cons_self _ _)
  have hl2 : ∀ dbs ∈ l2, dbs.id ≠ r.id := by
    intro dbs hd hcontra
    exact hnodup.2.1.1 (hcontra ▸ List.mem_map_of_mem SessionRecord.id hd)
  rw [hsplit, List.foldl_append, List.foldl_cons]
  have hr1 : r ∈ (l1.foldl (activeSyncStep b now) (sess, lg)).1 :=
    foldl_activeSync_untouched l1 _ hl1 hmem
  obtain ⟨r', hr', hprops⟩ :=
    activeSyncStep_hit hr1 rfl hok (by simp [hst])
  exact ⟨r', foldl_activeSync_untouched l2 _ (fun d hd hc => hl2 d hd (hprops.1 ▸ hc)) hr',
    hprops⟩

/-- Witness for C5: the single-record store `[s1InProgress]` under a remote
that reports COMPLETED — after syncActive the record is COMPLETED with
`completedAt = some 5`. -/
theorem active_sync_marks_completed_witness :
    ∃ out, runActiveSessionSync bAllCompleted 5 [s1InProgress] [] = .ok out ∧
      ∃ r' ∈ out.1, r'.id = s1InProgress.id ∧ r'.status = "COMPLETED" ∧
        r'.completedAt = some 5 :=
  active_sync_marks_completed bAllCompleted 5 [s1InProgress] [] s1InProgress
    (by decide) (by decide) (by decide) rfl rfl rfl

/-- All `checkOnJules` calls succeeding makes the intervention loop total. -/
theorem countInterventions_ok (b : Behaviour) (h : ∀ i, b.checkOnJulesR i = .ok ())
    (l : List SessionRecord) (n : Nat) : ∃ k, countInterventions b l n = .ok k := by
  induction l generalizing n with
  | nil => exact ⟨n, rfl⟩
  | cons s rest ih =>
    unfold countInterventions
    rw [h s.id]
    exact ih (n + 1)

/-- C6 (counterexample): `run()` is not total over store behaviours — when the
active-sync `findMany` store query fails, the error escapes `run()` and the
intervention phase never executes. -/
theorem run_throws_on_store_failure :
    runMonitor bStoreFail 0 [] [] = .error "ACTIVE_FINDMANY" := by
  rfl

/-- C6 (amended): `run()` traps discovery failures and per-session remote
failures inside active-sync, so when the store queries (`findMany` in both
phases), the KV freshness write, and every intervention dispatch succeed,
`run()` returns counts no matter how the remote `listSessions` / `getSession`
/ `listActivities` calls fail; but a failure of any of those store/KV/dispatch
calls propagates out of `run()` (see the counterexample), and one inside
ActiveSessionSync prevents the intervention phase. -/
theorem run_returns_when_store_ok (b : Behaviour) (now : Nat)
    (sess : List SessionRecord) (lg : List ActivityRecord)
    (hfm : b.findManyActiveOk = true)
    (hkv : (b.kvPresent && !b.kvPutOk) = false)
    (hsm : b.findManyStuckOk = true)
    (hcj : ∀ i, b.checkOnJulesR i = .ok ()) :
    ∃ out, runMonitor b now sess lg = .ok out := by
  unfold runMonitor
  dsimp only
  have hact : runActiveSessionSync b now (syncExternalSessionsE b sess).2 lg =
      .ok (((syncExternalSessionsE b sess).2.filter isActive).foldl
        (activeSyncStep b now) ((syncExternalSessionsE b sess).2, lg)) := by
    unfold runActiveSessionSync
    rw [if_neg (by simp [hfm]), if_neg (by simp [hkv])]
  rw [hact]
  dsimp only
  unfold runStuckPhase
  rw [if_neg (by simp [hsm])]
  obtain ⟨k, hk⟩ := countInterventions_ok b hcj _ 0
  rw [hk]
  exact ⟨_, rfl⟩

/-- Witness for C6 (amended): a behaviour whose every remote call fails but
whose store and KV calls succeed still makes `run()` return a result. -/
theorem run_returns_when_store_ok_witness :
    ∃ out, runMonitor bRemoteDown 0 [s1InProgress] [] = .ok out :=
  run_returns_when_store_ok bRemoteDown 0 [s1InProgress] [] rfl rfl rfl (fun _ => rfl)

/-- C7: the stuck-session detector queries the literal status
"WAITING_FOR_USER_FEEDBACK", which differs from the session-state enum's
awaiting-user-feedback value "AWAITING_USER_FEEDBACK" — so a stored session
whose status is the enum value is never selected for intervention. -/
theorem stuck_detector_dead_query :
    checkForStuckSessions [stuckRecord] = [] ∧
    stuckRecord.status = stateStr SessionState.AWAITING_USER_FEEDBACK ∧
    stateStr SessionState.AWAITING_USER_FEEDBACK = "AWAITING_USER_FEEDBACK" ∧
    stuckQuery = "WAITING_FOR_USER_FEEDBACK" := by
  decide

/-- C8 (counterexample): on the getSession sequence [AWAITING_PLAN_APPROVAL,
AWAITING_PLAN_APPROVAL, IN_PROGRESS, COMPLETED] with auto-approval, the
poller reaches COMPLETED but calls approvePlan twice — once per observed
AWAITING_PLAN_APPROVAL poll — not exactly once. -/
theorem poller_scenarioE_not_single_approval :
    (monitor defaultOpts scenarioEStates noActs).status = PollStatus.COMPLETED ∧
    (monitor defaultOpts scenarioEStates noActs).approveCalls ≠ 1 := by
  decide

/-- C8 (amended): on Scenario E's sequence the poller calls approvePlan once
per observed AWAITING_PLAN_APPROVAL poll — twice in total here — and
eventually returns COMPLETED. -/
theorem poller_scenarioE_two_approvals :
    monitor defaultOpts scenarioEStates noActs =
      { status := .COMPLETED, finalState := .COMPLETED, lastMessage := none
        approveCalls := 2, activityFetches := 0 } := by
  decide

/-- C9 (counterexample): when the poller observes PAUSED it returns
NEEDS_INPUT without fetching any activity and without a message, even though
an agent message is available remotely — contradicting the claim that PAUSED
is handled like AWAITING_USER_FEEDBACK. -/
theorem poller_paused_returns_without_fetch :
    (monitor defaultOpts pausedStates askActs).status = PollStatus.NEEDS_INPUT ∧
    (monitor defaultOpts pausedStates askActs).lastMessage = none ∧
    (monitor defaultOpts pausedStates askActs).activityFetches = 0 := by
  decide

/-- C9 (amended): within the deadline, observing AWAITING_USER_FEEDBACK makes
the poller fetch the single most recent activity and return NEEDS_INPUT
carrying its agent message (or the generic default); observing PAUSED makes
it return NEEDS_INPUT immediately, with no activity fetch and no message. -/
theorem poller_feedback_fetches_paused_does_not (o : PollOpts)
    (g : Nat → SessionState) (la : Nat → List Activity)
    (fuel gi ai el ap : Nat) (hel : el < o.timeoutMs) :
    (g gi = .AWAITING_USER_FEEDBACK →
      monitorLoop o g la (fuel + 1) gi ai el ap =
        { status := .NEEDS_INPUT, finalState := .AWAITING_USER_FEEDBACK
          lastMessage := some (extractFeedbackMsg (la ai))
          approveCalls := ap, activityFetches := ai + 1 }) ∧
    (g gi = .PAUSED →
      monitorLoop o g la (fuel + 1) gi ai el ap =
        { status := .NEEDS_INPUT, finalState := .PAUSED, lastMessage := none
          approveCalls := ap, activityFetches := ai }) := by
  constructor <;> intro h <;> simp [monitorLoop, hel, h]

/-- Witness for C9 (amended): concrete runs observing AWAITING_USER_FEEDBACK
(message fetched and carried) and PAUSED (no fetch, no message). -/
theorem poller_feedback_fetches_witness :
    monitorLoop defaultOpts feedbackStates askActs 1 0 0 0 0 =
      { status := .NEEDS_INPUT, finalState := .AWAITING_USER_FEEDBACK
        lastMessage := some "Which database?"
        approveCalls := 0, activityFetches := 1 } ∧
    monitorLoop defaultOpts pausedStates askActs 1 0 0 0 0 =
      { status := .NEEDS_INPUT, finalState := .PAUSED, lastMessage := none
        approveCalls := 0, activityFetches := 0 } := by
  constructor
  · rw [(poller_feedback_fetches_paused_does_not defaultOpts feedbackStates askActs
      0 0 0 0 0 (by decide)).1 rfl]
    decide
  · exact (poller_feedback_fetches_paused_does_not defaultOpts pausedStates askActs
      0 0 0 0 0 (by decide)).2 rfl

end JulesMonitor
